import Mathlib

/-!
Shallow embedding of the GalleryBoard dashboard (src/pages/Dashboard.tsx):
the post data model, the create and delete handlers, and the realtime feed
subscription. Backend services (document store, object storage) are external;
where their behaviour decides a property it is modelled from the documented
contract and marked as such.
-/

namespace MyRoom

/-- Server-assigned timestamp (firebase Timestamp), abstracted as a point on a
total order. -/
structure Timestamp where
  t : Int
deriving DecidableEq

/-- The Post interface of Dashboard.tsx (lines 25-33). createdAt is nullable
until the backend commits the record. -/
structure Post where
  id : String
  title : String
  content : String
  imageUrl : Option String
  authorId : String
  authorEmail : String
  createdAt : Option Timestamp
deriving DecidableEq

/-- The value written into createdAt by the create call: a server-assigned
placeholder (serverTimestamp), never a client-computed time. -/
inductive TsPlaceholder where
  | serverTimestamp
deriving DecidableEq

/-- The record passed to the single addDoc call in handleCreatePost
(lines 183-190). -/
structure NewPostData where
  title : String
  content : String
  imageUrl : String
  authorId : String
  authorEmail : String
  createdAt : TsPlaceholder
deriving DecidableEq

/-- A binary file handle selected by the user (cover photo). -/
structure FileT where
  name : String
deriving DecidableEq

/-- The authenticated identity exposed by the auth provider: subject id plus
an optional email. -/
structure UserT where
  uid : String
  email : Option String
deriving DecidableEq

/-- A backend error as observed by the catch blocks: only its code field is
inspected. -/
structure FireError where
  code : String
deriving DecidableEq

/-- The component state of the dashboard view (useState hooks, lines 40-49). -/
structure DashState where
  posts : List Post
  title : String
  content : String
  featuredImage : Option FileT
  imagePreview : Option String
  isSubmitting : Bool
  uploadProgress : Nat
  isInitialLoading : Bool
  permissionError : Option String
deriving DecidableEq

/-- The initial component state at mount. -/
def dashInit : DashState :=
  { posts := [], title := "", content := "", featuredImage := none,
    imagePreview := none, isSubmitting := false, uploadProgress := 0,
    isInitialLoading := true, permissionError := none }

/-- Observable external calls issued by one handler invocation: storage
uploads attempted, record-creation (addDoc) calls, record-delete calls, and
alert dialogs shown. -/
structure Effects where
  uploads : List FileT
  addDocCalls : List NewPostData
  deleteCalls : List String
  alerts : List String
deriving DecidableEq

/-- No external call and no dialog. -/
def Effects.pure : Effects :=
  { uploads := [], addDocCalls := [], deleteCalls := [], alerts := [] }

/-- Resolution of the asynchronous steps inside one handleCreatePost run:
the progress ticks the upload task emits, the terminal outcome of the cover
upload, and the outcome of the addDoc call. -/
structure CreateEnv where
  uploadTicks : List Nat
  uploadOutcome : Except FireError String
  addDocOutcome : Except FireError String

/-- The title.trim of the source, as a computable function on the character
list: whitespace is removed from both ends. -/
def trimStr (s : String) : String :=
  String.mk
    (((s.data.dropWhile Char.isWhitespace).reverse.dropWhile
        Char.isWhitespace).reverse)

/-- The empty-content test of handleCreatePost line 171: falsy content or the
canonical empty document of the editor. -/
def isContentEmpty (content : String) : Bool :=
  content == "" || content == "<p><br></p>"

/-- Each progress callback of the upload task overwrites uploadProgress
(lines 61-64). -/
def applyProgressTicks : List Nat → DashState → DashState
  | [], st => st
  | p :: ps, st => applyProgressTicks ps { st with uploadProgress := p }

/-- The catch block of handleCreatePost (lines 197-203): a permission-denied
code sets the permission banner, any other failure shows a generic alert. -/
def catchCreateError (e : FireError) (st : DashState) : DashState × List String :=
  if e.code == "permission-denied" then
    ({ st with
        permissionError := some "Write Denied: Check Firestore and Storage rules." }, [])
  else
    (st, ["Failed to save post. Please try again."])

/-- The record built at lines 183-190: trimmed title, raw content, the
resolved image URL (empty when no cover), author identity with the Anonymous
fallback, and the server-timestamp placeholder. -/
def createdRecord (u : UserT) (st : DashState) (imageUrl : String) : NewPostData :=
  { title := trimStr st.title, content := st.content, imageUrl := imageUrl,
    authorId := u.uid, authorEmail := u.email.getD "Anonymous",
    createdAt := TsPlaceholder.serverTimestamp }

/-- The addDoc call and its two continuations: on success the form is reset
(lines 192-196), on failure the catch block runs; the finally block clears
isSubmitting either way (lines 204-206). -/
def finishCreate (u : UserT) (imageUrl : String) (ups : List FileT)
    (env : CreateEnv) (stCur : DashState) : DashState × Effects :=
  let record := createdRecord u stCur imageUrl
  match env.addDocOutcome with
  | .ok _ =>
      ({ stCur with
          title := "", content := "", featuredImage := none,
          imagePreview := none, uploadProgress := 0, isSubmitting := false },
       { Effects.pure with
          uploads := ups, addDocCalls := [record] })
  | .error e =>
      let r := catchCreateError e stCur
      ({ r.1 with isSubmitting := false },
       { Effects.pure with
          uploads := ups, addDocCalls := [record], alerts := r.2 })

/-- handleCreatePost (lines 169-207): validation gate, then optional cover
upload that the call blocks on, then exactly one addDoc call. -/
def handleCreatePost (user : Option UserT) (env : CreateEnv)
    (st : DashState) : DashState × Effects :=
  if trimStr st.title == "" || isContentEmpty st.content || user.isNone then
    (st, Effects.pure)
  else
    match user with
    | none => (st, Effects.pure)
    | some u =>
        let st1 := { st with isSubmitting := true, permissionError := none }
        match st.featuredImage with
        | some f =>
            let st2 := applyProgressTicks env.uploadTicks st1
            match env.uploadOutcome with
            | .error e =>
                let r := catchCreateError e st2
                ({ r.1 with isSubmitting := false },
                 { Effects.pure with
                    uploads := [f], alerts := r.2 })
            | .ok url => finishCreate u url [f] env st2
        | none => finishCreate u "" [] env st1

/-- The disabled condition of the submit button (line 326): submits are
blocked while a submission is in flight or while the form is invalid. -/
def submitDisabled (st : DashState) : Bool :=
  st.isSubmitting || trimStr st.title == "" || st.content == ""
    || st.content == "<p><br></p>"

/-- A user submit request as routed through the form: a disabled submit
button drops the request before the handler runs. -/
def submitRequest (user : Option UserT) (env : CreateEnv)
    (st : DashState) : DashState × Effects :=
  if submitDisabled st then (st, Effects.pure) else handleCreatePost user env st

/-- handleDeletePost (lines 209-217): interactive confirmation, one deleteDoc
call, and a single alert message shown on any failure. -/
def handleDeletePost (confirmed : Bool) (outcome : Except FireError Unit)
    (postId : String) (st : DashState) : DashState × Effects :=
  if !confirmed then (st, Effects.pure)
  else
    match outcome with
    | .ok _ => (st, { Effects.pure with deleteCalls := [postId] })
    | .error _ =>
        (st, { Effects.pure with
          deleteCalls := [postId],
          alerts := ["Permission Denied: You can only delete your own posts."] })

/-- The snapshot callback of the feed subscription (lines 128-135): the
delivered document list replaces the posts state wholesale. -/
def onSnapshotNext (docs : List Post) (st : DashState) : DashState :=
  { st with posts := docs, isInitialLoading := false }

/-- The error callback of the feed subscription (lines 136-142): only a
permission-denied code surfaces a user-visible condition; every failure ends
the initial-loading phase; the callback never throws. -/
def onSnapshotError (e : FireError) (st : DashState) : DashState :=
  let st1 :=
    if e.code == "permission-denied" then
      { st with permissionError := some "Access Denied: Check your Firestore rules." }
    else st
  { st1 with isInitialLoading := false }

/-- The feed order used by the standing query (line 125, orderBy createdAt
descending): a null createdAt (a write the backend has not yet committed)
comes before every committed timestamp, and committed timestamps are in
descending order. -/
def postLEb (a b : Post) : Bool :=
  match a.createdAt, b.createdAt with
  | none, _ => true
  | some _, none => false
  | some s, some u => decide (u.t ≤ s.t)

/-- postLEb as a relation, for sortedness statements. -/
def feedOrder (a b : Post) : Prop := postLEb a b = true

instance : DecidableRel feedOrder := fun a b =>
  inferInstanceAs (Decidable (postLEb a b = true))

instance : IsTotal Post feedOrder := by
  constructor
  intro a b
  unfold feedOrder postLEb
  cases a.createdAt with
  | none => exact Or.inl rfl
  | some s =>
      cases b.createdAt with
      | none => exact Or.inr rfl
      | some u =>
          rcases Int.le_total u.t s.t with h | h
          · exact Or.inl (by simpa using h)
          · exact Or.inr (by simpa using h)

instance : IsTrans Post feedOrder := by
  constructor
  intro a b c hab hbc
  unfold feedOrder postLEb at *
  cases ha : a.createdAt with
  | none => rfl
  | some s =>
      cases hb : b.createdAt with
      | none => simp [ha, hb] at hab
      | some u =>
          cases hc : c.createdAt with
          | none => simp [ha, hb, hc] at hbc
          | some v =>
              simp [ha, hb] at hab
              simp [hb, hc] at hbc
              simp [ha, hc]
              omega

/-- Modelled from the spec: the document-store backend delivers the standing
query result ordered by the server-assigned timestamp, descending, with
not-yet-committed entries first (spec sections 3 and 6); the ordering itself
is performed by the backend, not by code under src. -/
def sortFeed (coll : List Post) : List Post :=
  List.insertionSort feedOrder coll

/-- A change to the tracked record collection: a single-record insert or a
single-record delete by id (the only writes this system issues). -/
inductive BackendEvent where
  | insert (p : Post)
  | delete (id : String)

/-- Modelled from the spec: how a backend change rewrites the tracked
collection. -/
def applyBackendEvent (coll : List Post) : BackendEvent → List Post
  | .insert p => p :: coll
  | .delete i => coll.filter (fun p => p.id != i)

/-- An event observed by one subscription: a backend change, a failure of the
notification channel, or the client running the unsubscribe handle. -/
inductive SubEvent where
  | change (e : BackendEvent)
  | fail (err : FireError)
  | unsub

/-- One live subscription: whether the listener is still attached, the
backend collection, the component state, and the full sequence of snapshots
delivered so far. -/
structure SubState where
  active : Bool
  coll : List Post
  dash : DashState
  deliveries : List (List Post)

/-- Modelled from the spec: onSnapshot delivers the initial ordered result
set immediately on subscribe. -/
def subStart (coll0 : List Post) (dash0 : DashState) : SubState :=
  { active := true, coll := coll0,
    dash := onSnapshotNext (sortFeed coll0) dash0,
    deliveries := [sortFeed coll0] }

/-- Modelled from the spec: a backend change is re-delivered as the full
ordered result set while the listener is attached; a channel failure invokes
the error callback and terminates the listener; the unsubscribe handle
detaches the listener so later changes deliver nothing. -/
def subStep (s : SubState) : SubEvent → SubState
  | .change e =>
      let coll := applyBackendEvent s.coll e
      if s.active then
        { s with
          coll := coll,
          dash := onSnapshotNext (sortFeed coll) s.dash,
          deliveries := s.deliveries ++ [sortFeed coll] }
      else { s with coll := coll }
  | .fail err =>
      if s.active then
        { s with active := false, dash := onSnapshotError err s.dash }
      else s
  | .unsub => { s with active := false }

/-- Running a subscription over a sequence of events. -/
def subRun (s : SubState) (es : List SubEvent) : SubState :=
  es.foldl subStep s

/-- Sample authenticated user for concrete runs. -/
def u0 : UserT := { uid := "uid1", email := some "amy@example.com" }

/-- Environment in which the upload and the create call both succeed. -/
def envOk : CreateEnv :=
  { uploadTicks := [], uploadOutcome := .ok "https://cdn.example/img.png",
    addDocOutcome := .ok "doc1" }

/-- Environment in which the cover upload fails after some progress. -/
def envUpFail : CreateEnv :=
  { uploadTicks := [10, 42], uploadOutcome := .error { code := "storage/unknown" },
    addDocOutcome := .ok "doc1" }

/-- Environment in which the create call itself is rejected. -/
def envDocFail : CreateEnv :=
  { uploadTicks := [], uploadOutcome := .ok "https://cdn.example/img.png",
    addDocOutcome := .error { code := "permission-denied" } }

/-- A valid form state with no cover file. -/
def stValid : DashState :=
  { dashInit with title := "Sunset", content := "<p>Hello</p>" }

/-- A valid form state with a cover file selected. -/
def stWithCover : DashState :=
  { dashInit with
    title := "Sunset", content := "<p>Hello</p>",
    featuredImage := some { name := "img.png" },
    imagePreview := some "data:preview" }

/-- The composer form after a successful create: every input reset. -/
def formCleared (st : DashState) : Prop :=
  st.title = "" ∧ st.content = "" ∧ st.featuredImage = none
    ∧ st.imagePreview = none ∧ st.uploadProgress = 0

/-- The composer form inputs of the second state agree with the first:
nothing the user typed or selected was touched. -/
def formPreserved (st0 st1 : DashState) : Prop :=
  st1.title = st0.title ∧ st1.content = st0.content
    ∧ st1.featuredImage = st0.featuredImage
    ∧ st1.imagePreview = st0.imagePreview

/-- The progress callbacks only rewrite the uploadProgress field. -/
theorem applyProgressTicks_frame (ticks : List Nat) (st : DashState) :
    applyProgressTicks ticks st
      = { st with uploadProgress := (applyProgressTicks ticks st).uploadProgress } := by
  induction ticks generalizing st with
  | nil => rfl
  | cons p ps ih => exact ih { st with uploadProgress := p }

theorem applyTicks_posts (ticks : List Nat) (st : DashState) :
    (applyProgressTicks ticks st).posts = st.posts := by
  rw [applyProgressTicks_frame]

theorem applyTicks_title (ticks : List Nat) (st : DashState) :
    (applyProgressTicks ticks st).title = st.title := by
  rw [applyProgressTicks_frame]

theorem applyTicks_content (ticks : List Nat) (st : DashState) :
    (applyProgressTicks ticks st).content = st.content := by
  rw [applyProgressTicks_frame]

theorem applyTicks_featuredImage (ticks : List Nat) (st : DashState) :
    (applyProgressTicks ticks st).featuredImage = st.featuredImage := by
  rw [applyProgressTicks_frame]

theorem applyTicks_imagePreview (ticks : List Nat) (st : DashState) :
    (applyProgressTicks ticks st).imagePreview = st.imagePreview := by
  rw [applyProgressTicks_frame]

/-- C10: with no authenticated identity, handleCreatePost is a silent no-op
for every form state and every environment: the state is unchanged and no
upload, no record creation and no alert is issued. -/
theorem C10_no_user_silent_noop (env : CreateEnv) (st : DashState) :
    handleCreatePost none env st = (st, Effects.pure) := by
  unfold handleCreatePost
  simp

/-- C4: when the title trims to empty, or the content is empty, or the
content is the canonical empty document of the editor, handleCreatePost is a
no-op: the state is unchanged and no upload, record creation or alert is
issued. -/
theorem C4_validation_noop (user : Option UserT) (env : CreateEnv)
    (st : DashState)
    (h : trimStr st.title = "" ∨ st.content = "" ∨ st.content = "<p><br></p>") :
    handleCreatePost user env st = (st, Effects.pure) := by
  unfold handleCreatePost
  rcases h with h | h | h <;> simp [isContentEmpty, h]

/-- C4 witness: an empty title with non-empty content is dropped before any
call. -/
theorem C4_validation_noop_witness :
    handleCreatePost (some u0) envOk { dashInit with content := "<p>Hi</p>" }
      = ({ dashInit with content := "<p>Hi</p>" }, Effects.pure) :=
  C4_validation_noop (some u0) envOk { dashInit with content := "<p>Hi</p>" }
    (Or.inl (by decide))

/-- C5: while a submission is in flight (isSubmitting is true) a further
submit request is rejected by the disabled submit button as an idempotent
no-op: the state is unchanged and no upload or record creation is issued. -/
theorem C5_single_submission_in_flight (user : Option UserT) (env : CreateEnv)
    (st : DashState) (h : st.isSubmitting = true) :
    submitRequest user env st = (st, Effects.pure) := by
  unfold submitRequest submitDisabled
  simp [h]

/-- C5 witness: a concrete repeat submit during an in-flight submission does
nothing. -/
theorem C5_single_submission_in_flight_witness :
    submitRequest (some u0) envOk
        { dashInit with title := "Sunset", content := "<p>Hello</p>", isSubmitting := true }
      = ({ dashInit with title := "Sunset", content := "<p>Hello</p>", isSubmitting := true },
         Effects.pure) :=
  C5_single_submission_in_flight (some u0) envOk
    { dashInit with title := "Sunset", content := "<p>Hello</p>", isSubmitting := true } rfl

/-- C1 counterexample: on the valid input pair with title " A " (non-empty
after trimming) and no cover, the single created record stores the trimmed
title "A", which differs from the input title, so the record title does not
match the input verbatim. -/
theorem C1_counterexample :
    ((handleCreatePost (some u0) envOk
        { dashInit with title := " A ", content := "<p>Hi</p>" }).2.addDocCalls.map
      NewPostData.title) = ["A"]
    ∧ (" A " : String) ≠ "A" := by
  constructor
  · decide
  · decide

/-- C1 amended: for every valid input pair with no cover file and an
authenticated user, handleCreatePost issues exactly one record-creation call
whose content equals the input content, whose title equals the input title
trimmed, and whose image field is the empty string; no upload is issued. -/
theorem C1_create_record_fields (st : DashState) (u : UserT) (env : CreateEnv)
    (hT : trimStr st.title ≠ "") (hC : isContentEmpty st.content = false)
    (hF : st.featuredImage = none) :
    (handleCreatePost (some u) env st).2.addDocCalls = [createdRecord u st ""]
    ∧ (handleCreatePost (some u) env st).2.uploads = [] := by
  rcases env with ⟨ticks, uo, ao⟩
  cases ao <;>
    simp [handleCreatePost, hT, hC, hF, finishCreate, createdRecord]

/-- C1 witness: a concrete valid submission with no cover issues one create
call carrying the trimmed title, the content and an empty image field. -/
theorem C1_create_record_fields_witness :
    (handleCreatePost (some u0) envOk stValid).2.addDocCalls
      = [createdRecord u0 stValid ""]
    ∧ (handleCreatePost (some u0) envOk stValid).2.uploads = [] :=
  C1_create_record_fields stValid u0 envOk (by decide) (by decide) rfl

/-- C2: for every valid submission with a cover file whose upload rejects,
no record-creation call is issued and the posts list is unchanged. -/
theorem C2_upload_failure_no_record (st : DashState) (u : UserT)
    (env : CreateEnv) (f : FileT) (e : FireError)
    (hT : trimStr st.title ≠ "") (hC : isContentEmpty st.content = false)
    (hF : st.featuredImage = some f)
    (hU : env.uploadOutcome = Except.error e) :
    (handleCreatePost (some u) env st).2.addDocCalls = []
    ∧ (handleCreatePost (some u) env st).1.posts = st.posts := by
  rcases env with ⟨ticks, uo, ao⟩
  cases hU
  by_cases hp : e.code == "permission-denied" <;>
    simp [handleCreatePost, hT, hC, hF, catchCreateError, hp, applyTicks_posts,
      Effects.pure]

/-- C2 witness: a concrete submission whose cover upload fails creates
nothing and leaves the posts list as it was. -/
theorem C2_upload_failure_no_record_witness :
    (handleCreatePost (some u0) envUpFail stWithCover).2.addDocCalls = []
    ∧ (handleCreatePost (some u0) envUpFail stWithCover).1.posts
        = stWithCover.posts :=
  C2_upload_failure_no_record stWithCover u0 envUpFail { name := "img.png" }
    { code := "storage/unknown" } (by decide) (by decide) rfl rfl

/-- C9: for every valid submission, success resets the whole form (title,
content, cover file, preview empty and progress zero); a failed cover upload
or a failed create call leaves title, content, cover file and preview
untouched; in every case isSubmitting returns to false. -/
theorem C9_reset_and_frame (st : DashState) (u : UserT) (env : CreateEnv)
    (hT : trimStr st.title ≠ "") (hC : isContentEmpty st.content = false) :
    ((st.featuredImage = none ∨ (∃ url, env.uploadOutcome = Except.ok url)) →
        (∃ d, env.addDocOutcome = Except.ok d) →
        formCleared (handleCreatePost (some u) env st).1
          ∧ (handleCreatePost (some u) env st).1.isSubmitting = false)
    ∧ (∀ f e, st.featuredImage = some f →
        env.uploadOutcome = Except.error e →
        formPreserved st (handleCreatePost (some u) env st).1
          ∧ (handleCreatePost (some u) env st).1.isSubmitting = false)
    ∧ (∀ e, (st.featuredImage = none ∨ (∃ url, env.uploadOutcome = Except.ok url)) →
        env.addDocOutcome = Except.error e →
        formPreserved st (handleCreatePost (some u) env st).1
          ∧ (handleCreatePost (some u) env st).1.isSubmitting = false) := by
  rcases env with ⟨ticks, uo, ao⟩
  refine ⟨?_, ?_, ?_⟩
  · rintro hcov ⟨d, hd⟩
    cases hd
    rcases hcov with hF | ⟨url, hu⟩
    · simp [handleCreatePost, hT, hC, hF, finishCreate, formCleared]
    · cases hu
      cases hF : st.featuredImage with
      | none => simp [handleCreatePost, hT, hC, hF, finishCreate, formCleared]
      | some f => simp [handleCreatePost, hT, hC, hF, finishCreate, formCleared]
  · rintro f e hF hu
    cases hu
    by_cases hp : e.code == "permission-denied" <;>
      simp [handleCreatePost, hT, hC, hF, catchCreateError, hp, formPreserved,
        applyTicks_title, applyTicks_content, applyTicks_featuredImage,
        applyTicks_imagePreview]
  · rintro e hcov ha
    cases ha
    rcases hcov with hF | ⟨url, hu⟩
    · by_cases hp : e.code == "permission-denied" <;>
        simp [handleCreatePost, hT, hC, hF, finishCreate, catchCreateError, hp,
          formPreserved]
    · cases hu
      cases hF : st.featuredImage with
      | none =>
          by_cases hp : e.code == "permission-denied" <;>
            simp [handleCreatePost, hT, hC, hF, finishCreate, catchCreateError,
              hp, formPreserved]
      | some f =>
          by_cases hp : e.code == "permission-denied" <;>
            simp [handleCreatePost, hT, hC, hF, finishCreate, catchCreateError,
              hp, formPreserved, applyTicks_title, applyTicks_content,
              applyTicks_featuredImage, applyTicks_imagePreview]

/-- C9 witness: a concrete successful submission fully resets the form and
clears isSubmitting. -/
theorem C9_reset_and_frame_witness :
    formCleared (handleCreatePost (some u0) envOk stValid).1
    ∧ (handleCreatePost (some u0) envOk stValid).1.isSubmitting = false :=
  (C9_reset_and_frame stValid u0 envOk (by decide) (by decide)).1
    (Or.inl rfl) ⟨"doc1", rfl⟩

/-- Once a subscription is detached, running any further events changes
neither its attachment nor its delivered sequence. -/
theorem subRun_inactive (es : List SubEvent) (s : SubState)
    (h : s.active = false) :
    (subRun s es).active = false
    ∧ (subRun s es).deliveries = s.deliveries := by
  induction es generalizing s with
  | nil => exact ⟨h, rfl⟩
  | cons e es ih =>
      have hstep : (subStep s e).active = false
          ∧ (subStep s e).deliveries = s.deliveries := by
        cases e with
        | change be => simp [subStep, h]
        | fail err => simp [subStep, h]
        | unsub => simp [subStep]
      have h2 := ih (subStep s e) hstep.1
      refine ⟨h2.1, ?_⟩
      calc (subRun s (e :: es)).deliveries
          = (subRun (subStep s e) es).deliveries := rfl
        _ = (subStep s e).deliveries := h2.2
        _ = s.deliveries := hstep.2

/-- Every delivery appended by any further event is a sorted snapshot. -/
theorem subRun_deliveries_sorted_inv (es : List SubEvent) (s : SubState)
    (h : ∀ d ∈ s.deliveries, List.Sorted feedOrder d) :
    ∀ d ∈ (subRun s es).deliveries, List.Sorted feedOrder d := by
  induction es generalizing s with
  | nil => exact h
  | cons e es ih =>
      refine ih (subStep s e) ?_
      cases e with
      | change be =>
          by_cases ha : s.active = true
          · intro d hd
            simp [subStep, ha] at hd
            rcases hd with hd | hd
            · exact h d hd
            · rw [hd]
              exact List.sorted_insertionSort feedOrder _
          · intro d hd
            simp [subStep, ha] at hd
            exact h d hd
      | fail err =>
          intro d hd
          by_cases ha : s.active = true <;> simp [subStep, ha] at hd <;>
            exact h d hd
      | unsub =>
          intro d hd
          simp [subStep] at hd
          exact h d hd

/-- C3: for every initial collection and every sequence of insert and delete
notifications, every snapshot the feed subscription delivers is sorted by
createdAt descending with the not-yet-committed entries (null createdAt)
before all committed ones, which is exactly the feedOrder relation. -/
theorem C3_deliveries_sorted (coll0 : List Post) (dash0 : DashState)
    (es : List SubEvent) :
    List.Forall (fun d => List.Sorted feedOrder d)
      (subRun (subStart coll0 dash0) es).deliveries := by
  rw [List.forall_iff_forall_mem]
  refine subRun_deliveries_sorted_inv es _ ?_
  intro d hd
  simp [subStart] at hd
  rw [hd]
  exact List.sorted_insertionSort feedOrder coll0

/-- C6 counterexample: a delete rejected for a generic, non-permission reason
shows the very same message as a permission rejection, so the not-permitted
condition is not distinct from the generic-failure one. -/
theorem C6_counterexample :
    (handleDeletePost true (Except.error { code := "unavailable" }) "p1"
        dashInit).2.alerts
      = (handleDeletePost true (Except.error { code := "permission-denied" })
          "p1" dashInit).2.alerts := by
  rfl

/-- C6 amended: every confirmed delete whose backend call is rejected,
whatever the error code, issues exactly one delete call and surfaces the
single message "Permission Denied: You can only delete your own posts.";
permission rejections are therefore surfaced, but not distinctly from
generic failures. -/
theorem C6_delete_failure_single_message (e : FireError) (pid : String)
    (st : DashState) :
    (handleDeletePost true (Except.error e) pid st).2.alerts
        = ["Permission Denied: You can only delete your own posts."]
    ∧ (handleDeletePost true (Except.error e) pid st).2.deleteCalls = [pid] := by
  exact ⟨rfl, rfl⟩

/-- C7 counterexample: a channel failure whose code is not permission-denied
(a connectivity failure) surfaces nothing: the only state change is the end
of the initial-loading phase, so no distinct access or connectivity condition
reaches the consumer. -/
theorem C7_counterexample :
    onSnapshotError { code := "unavailable" } dashInit
      = { dashInit with isInitialLoading := false } := by
  decide

/-- C7 amended: the subscription error callback surfaces the distinct
"Access Denied" condition exactly when the failure code is permission-denied
and surfaces nothing for other channel failures; it always ends the
initial-loading phase; and after any channel failure the subscription
delivers no further snapshot. -/
theorem C7_channel_failure_handling (e : FireError) (st : DashState)
    (s : SubState) (es : List SubEvent) :
    ((onSnapshotError e st).permissionError
        = if e.code == "permission-denied"
            then some "Access Denied: Check your Firestore rules."
            else st.permissionError)
    ∧ (onSnapshotError e st).isInitialLoading = false
    ∧ (subRun (subStep s (SubEvent.fail e)) es).deliveries
        = (subStep s (SubEvent.fail e)).deliveries := by
  refine ⟨?_, ?_, ?_⟩
  · by_cases hp : e.code == "permission-denied" <;> simp [onSnapshotError, hp]
  · by_cases hp : e.code == "permission-denied" <;> simp [onSnapshotError, hp]
  · have h : (subStep s (SubEvent.fail e)).active = false := by
      by_cases ha : s.active = true <;> simp [subStep, ha]
    exact (subRun_inactive es _ h).2

/-- C8: for every run of the subscription, once the unsubscribe handle has
run, every subsequent sequence of backend events produces zero further
deliveries: the delivered sequence is exactly the one from before the
unsubscribe. -/
theorem C8_unsubscribe_stops_deliveries (coll0 : List Post)
    (dash0 : DashState) (es1 es2 : List SubEvent) :
    (subRun (subStep (subRun (subStart coll0 dash0) es1) SubEvent.unsub)
        es2).deliveries
      = (subRun (subStart coll0 dash0) es1).deliveries := by
  have h : (subStep (subRun (subStart coll0 dash0) es1) SubEvent.unsub).active
      = false := rfl
  have h2 := subRun_inactive es2 _ h
  rw [h2.2]
  rfl

end MyRoom
